import Mathlib

/-!
Verification of Scholar AI's two core subsystems, shallowly embedded in Lean 4:

* the API-key rotation / client-resolver layer of the frontend AI service
  module (`_chooseKeyForTest`, `getAIClient`, `getMotivationalMessage`);
* the OTP-based auth state machine of `server.js`
  (`/api/signup`, `/api/login`, `/api/verify-otp`, `/api/resend-otp`,
  `/api/verify-and-login`, `/api/reset-password`).

JavaScript timestamps (`Date.now()`, expiry values) are modelled as `Nat`;
`undefined`-able record fields as `Option`; a JS falsy check `!x` on a string
is `x = ""`, and on a numeric timestamp it is "absent or zero".  bcrypt is
modelled by an abstract `hash : String → String` for storing and an abstract
`compare : String → String → Bool` for checking, since none of the verified
properties depend on the hash itself.  Handlers are pure functions from the
request plus the user store (a list, the in-memory fallback's representation;
the mongo branch has the same observable semantics except where noted) to a
result and an updated store.
-/

/-! ## Key rotation and client resolver (frontend AI service module) -/

/-- Transport chosen by `getAIClient`: either the backend proxy adapter
(`/api/ai/generate`) or a direct SDK client holding one credential. -/
inductive Transport where
  | proxy
  | direct (key : Option String)
  deriving DecidableEq, Repr

/-- The module-level candidate list `[...new Set(validKeys)]`: keep
first-seen occurrences, drop later duplicates. -/
def dedupFirstSeen : List String → List String
  | [] => []
  | x :: xs => x :: dedupFirstSeen (xs.filter (fun y => y ≠ x))
termination_by l => l.length
decreasing_by
  simp only [List.length_cons]
  exact Nat.lt_succ_of_le (List.length_filter_le _ _)

/-- `_chooseKeyForTest` from the AI service module: `null` when
`useServerProxy` (empty pool); otherwise the key at `currentIndex`, advancing
the index modulo the pool size only when the pool has more than one key. -/
def _chooseKeyForTest (keys : List String) (i : Nat) : Option String × Nat :=
  if keys.length = 0 then (none, i)
  else (keys[i]?, if 1 < keys.length then (i + 1) % keys.length else i)

/-- `getAIClient` from the AI service module: proxy adapter when the pool is
empty, otherwise a direct client on the key at the cursor, advancing the
cursor modulo the pool size only when the pool has more than one key.
(The source's `if (apiKeys.length === 0) throw …` after the proxy branch is
unreachable, since `useServerProxy` is exactly `apiKeys.length === 0`.) -/
def getAIClient (keys : List String) (i : Nat) : Transport × Nat :=
  if keys.length = 0 then (Transport.proxy, i)
  else (Transport.direct keys[i]?, if 1 < keys.length then (i + 1) % keys.length else i)

/-- The sequence of keys returned by `n` sequential resolver calls starting
at cursor `i`. -/
def runResolver (keys : List String) : Nat → Nat → List (Option String)
  | _, 0 => []
  | i, n + 1 =>
    (_chooseKeyForTest keys i).1 :: runResolver keys (_chooseKeyForTest keys i).2 n

/-- The cursor value after `n` sequential resolver calls starting at `i`. -/
def cursorAfter (keys : List String) : Nat → Nat → Nat
  | i, 0 => i
  | i, n + 1 => cursorAfter keys (_chooseKeyForTest keys i).2 n

/-- `getMotivationalMessage` from the AI service module, with the provider
call's outcome made explicit: `.error` is a thrown provider/proxy failure,
`.ok none` / `.ok (some "")` are falsy `response.text` values.  The score and
total only shape the prompt text in the source. -/
def getMotivationalMessage (score total : Nat)
    (providerResult : Except String (Option String)) : String :=
  match providerResult with
  | .error _ => "Keep learning, you\x27re doing great!"
  | .ok none => "Keep learning, you\x27re doing great!"
  | .ok (some t) => if t = "" then "Keep learning, you\x27re doing great!" else t

/-! ## Auth service (`server.js`) -/

/-- A user record (mongoose `UserSchema` / in-memory object literal). -/
structure UserRec where
  name : String
  email : String
  password : String
  isVerified : Bool
  otp : Option String
  otpExpiry : Option Nat
  resetOtp : Option String
  resetOtpExpiry : Option Nat
  deriving DecidableEq, Repr

/-- Observable outcome of an auth endpoint (HTTP error classes; `ok` carries
the `{name, email}` payload when the endpoint returns one). -/
inductive AuthResult where
  | ok (user : Option (String × String))
  | missingFields
  | notFound
  | invalidOtp
  | invalidCredentials
  | unverified
  | duplicate
  | serverError
  deriving DecidableEq, Repr

/-- HTTP status code for each outcome. -/
def AuthResult.status : AuthResult → Nat
  | .ok _ => 200
  | .missingFields => 400
  | .notFound => 400
  | .invalidOtp => 400
  | .invalidCredentials => 401
  | .unverified => 403
  | .duplicate => 409
  | .serverError => 500

/-- `User.findOne({email})` / `memoryUsers.find(u => u.email === email)`. -/
def findUser (email : String) (users : List UserRec) : Option UserRec :=
  users.find? (fun u => u.email == email)

/-- In-place mutation of the first record matching `p` (the JS code mutates
the record object returned by `find`). -/
def updateFirst (p : UserRec → Bool) (f : UserRec → UserRec) : List UserRec → List UserRec
  | [] => []
  | u :: rest => if p u then f u :: rest else u :: updateFirst p f rest

/-- JS `!expiry || expiry < Date.now()` on an optional numeric timestamp:
absent, zero (falsy), or strictly in the past. -/
def expiryBad : Option Nat → Nat → Bool
  | none, _ => true
  | some e, now => e == 0 || decide (e < now)

/-- The shared OTP rejection check
`user.otp !== otp || !user.otpExpiry || user.otpExpiry < Date.now()`. -/
def otpBad (stored : Option String) (submitted : String) (expiry : Option Nat)
    (now : Nat) : Bool :=
  stored != some submitted || expiryBad expiry now

/-- `POST /api/signup`.  Both the mongo and the memory branch: duplicate
(409) when a verified record with the email exists; fresh OTP + 5-minute
expiry written onto an existing unverified record; otherwise a new
unverified record is appended.  Email-send failure only changes the success
message, not the 200 status, so it is not a parameter here. -/
def signup (nm email password : String) (now : Nat) (newOtp : String)
    (hash : String → String) (users : List UserRec) : AuthResult × List UserRec :=
  if nm = "" ∨ email = "" ∨ password = "" then (.missingFields, users)
  else
    match findUser email users with
    | some ex =>
      if ex.isVerified then (.duplicate, users)
      else
        (.ok none,
          updateFirst (fun v => v.email == email)
            (fun v => { v with otp := some newOtp, otpExpiry := some (now + 5 * 60 * 1000) })
            users)
    | none =>
      (.ok none,
        users ++ [{ name := nm, email := email, password := hash password,
                    isVerified := false, otp := some newOtp,
                    otpExpiry := some (now + 5 * 60 * 1000),
                    resetOtp := none, resetOtpExpiry := none }])

/-- `POST /api/login`: 401 when no record, 403 when the record is
unverified (checked before the bcrypt comparison), 401 when the password
does not compare, else 200 with the user payload.  No mutation. -/
def login (email password : String) (compare : String → String → Bool)
    (users : List UserRec) : AuthResult :=
  match findUser email users with
  | none => .invalidCredentials
  | some u =>
    if u.isVerified = false then .unverified
    else if compare password u.password then .ok (some (u.name, u.email))
    else .invalidCredentials

/-- `POST /api/verify-otp`: not-found when no record; invalid-otp (record
untouched) when `otpBad`; else set `isVerified`, clear `otp`/`otpExpiry`. -/
def verifyOtp (email otp : String) (now : Nat) (users : List UserRec) :
    AuthResult × List UserRec :=
  if email = "" ∨ otp = "" then (.missingFields, users)
  else
    match findUser email users with
    | none => (.notFound, users)
    | some u =>
      if otpBad u.otp otp u.otpExpiry now then (.invalidOtp, users)
      else
        (.ok none,
          updateFirst (fun v => v.email == email)
            (fun v => { v with isVerified := true, otp := none, otpExpiry := none })
            users)

/-- `POST /api/resend-otp`.  The two storage branches differ observably:
the mongo branch `await`s `sendEmail` with no local catch, so a delivery
failure falls to the outer handler and becomes a 500 (the fresh OTP is
already saved); the memory branch appends `.catch(()=>{})`, so delivery
failure is swallowed and the call still returns 200. -/
def resendOtp (mongoReady : Bool) (email newOtp : String) (now : Nat)
    (emailOk : Bool) (users : List UserRec) : AuthResult × List UserRec :=
  if email = "" then (.missingFields, users)
  else
    match findUser email users with
    | none => (.notFound, users)
    | some _ =>
      let users' :=
        updateFirst (fun v => v.email == email)
          (fun v => { v with otp := some newOtp, otpExpiry := some (now + 5 * 60 * 1000) })
          users
      if mongoReady then
        if emailOk then (.ok none, users') else (.serverError, users')
      else
        (.ok none, users')

/-- `POST /api/verify-and-login`: OTP validated exactly as in `verifyOtp`;
on OTP success the record is verified and the OTP cleared (saved) before the
bcrypt comparison, so a failing password still consumes the OTP. -/
def verifyAndLogin (email otp password : String) (now : Nat)
    (compare : String → String → Bool) (users : List UserRec) :
    AuthResult × List UserRec :=
  if email = "" ∨ otp = "" ∨ password = "" then (.missingFields, users)
  else
    match findUser email users with
    | none => (.notFound, users)
    | some u =>
      if otpBad u.otp otp u.otpExpiry now then (.invalidOtp, users)
      else
        let users' :=
          updateFirst (fun v => v.email == email)
            (fun v => { v with isVerified := true, otp := none, otpExpiry := none })
            users
        if compare password u.password then (.ok (some (u.name, u.email)), users')
        else (.invalidCredentials, users')

/-- `POST /api/reset-password`: one combined guard
`!user || user.resetOtp !== otp || !user.resetOtpExpiry || expiry < now`
rejects with invalid-otp leaving the store untouched; otherwise the new
password hash is stored and `resetOtp`/`resetOtpExpiry` cleared. -/
def resetPassword (email otp newPassword : String) (now : Nat)
    (hash : String → String) (users : List UserRec) : AuthResult × List UserRec :=
  if email = "" ∨ otp = "" ∨ newPassword = "" then (.missingFields, users)
  else
    match findUser email users with
    | none => (.invalidOtp, users)
    | some u =>
      if otpBad u.resetOtp otp u.resetOtpExpiry now then (.invalidOtp, users)
      else
        (.ok none,
          updateFirst (fun v => v.email == email)
            (fun v => { v with password := hash newPassword,
                               resetOtp := none, resetOtpExpiry := none })
            users)

/-- A concrete unverified record with a pending signup OTP and a pending
reset OTP, used to instantiate the theorems below on concrete inputs. -/
def uvRec : UserRec :=
  { name := "Ana", email := "ana@x.com", password := "HPW", isVerified := false,
    otp := some "123456", otpExpiry := some 1000,
    resetOtp := some "654321", resetOtpExpiry := some 1000 }

/-- A concrete verified record, used to instantiate the theorems below on
concrete inputs. -/
def vRec : UserRec :=
  { name := "Bob", email := "bob@x.com", password := "HPW", isVerified := true,
    otp := none, otpExpiry := none, resetOtp := none, resetOtpExpiry := none }

/-! ## Resolver lemmas -/

lemma chooseKey_of_two_le (keys : List String) (i : Nat) (h2 : 2 ≤ keys.length) :
    _chooseKeyForTest keys i = (keys[i]?, (i + 1) % keys.length) := by
  have h0 : ¬ keys.length = 0 := by omega
  have h1 : 1 < keys.length := by omega
  simp [_chooseKeyForTest, h0, h1]

lemma runResolver_eq_rangeMap (keys : List String) (h2 : 2 ≤ keys.length) :
    ∀ n i, i < keys.length →
      runResolver keys i n = (List.range n).map (fun k => keys[(i + k) % keys.length]?) := by
  intro n
  induction n with
  | zero => intro i _; simp [runResolver]
  | succ n ih =>
    intro i hi
    rw [runResolver, chooseKey_of_two_le keys i h2]
    rw [ih ((i + 1) % keys.length) (Nat.mod_lt _ (by omega))]
    rw [List.range_succ_eq_map]
    simp only [List.map_cons, List.map_map]
    congr 1
    · rw [Nat.add_zero, Nat.mod_eq_of_lt hi]
    · apply List.map_congr_left
      intro a _
      simp only [Function.comp_apply, Nat.succ_eq_add_one]
      rw [Nat.mod_add_mod, show i + 1 + a = i + (a + 1) from by omega]

lemma cursorAfter_eq (keys : List String) (h2 : 2 ≤ keys.length) :
    ∀ n i, i < keys.length → cursorAfter keys i n = (i + n) % keys.length := by
  intro n
  induction n with
  | zero => intro i hi; simp [cursorAfter, Nat.mod_eq_of_lt hi]
  | succ n ih =>
    intro i hi
    rw [cursorAfter, chooseKey_of_two_le keys i h2]
    rw [ih _ (Nat.mod_lt _ (by omega)), Nat.mod_add_mod]
    congr 1
    omega

lemma runResolver_add (keys : List String) :
    ∀ a i b, runResolver keys i (a + b)
      = runResolver keys i a ++ runResolver keys (cursorAfter keys i a) b := by
  intro a
  induction a with
  | zero => intro i b; simp [runResolver, cursorAfter]
  | succ a ih =>
    intro i b
    have hs : a + 1 + b = (a + b) + 1 := by omega
    rw [hs, runResolver, runResolver, ih, cursorAfter]
    simp

lemma count_map_some (l : List String) (k : String) :
    (l.map some).count (some k) = l.count k := by
  induction l with
  | nil => simp
  | cons x xs ih => simp [List.count_cons, ih]

lemma runResolver_length_eq_rotate (keys : List String) (i : Nat)
    (h2 : 2 ≤ keys.length) (hi : i < keys.length) :
    runResolver keys i keys.length = (keys.rotate i).map some := by
  rw [runResolver_eq_rangeMap keys h2 keys.length i hi]
  apply List.ext_getElem?
  intro j
  rcases Nat.lt_or_ge j keys.length with hj | hj
  · rw [List.getElem?_map, List.getElem?_map, List.getElem?_range hj,
      List.getElem?_rotate (by omega)]
    simp only [Option.map_some']
    rw [Nat.add_comm j i, List.getElem?_eq_getElem (Nat.mod_lt _ (by omega))]
    rfl
  · rw [List.getElem?_eq_none, List.getElem?_eq_none]
    · rw [List.length_map, List.length_rotate]; omega
    · rw [List.length_map, List.length_range]; omega

/-- C2: for every credential pool of size N ≥ 2 and every starting cursor,
N sequential resolver calls return each credential exactly once, in the
configured order starting at the cursor (the pool rotated to the cursor),
the sequence is periodic with period N, and the cursor advances by one
modulo N after each call. -/
theorem resolver_round_robin (keys : List String) (i n : Nat) (k : String)
    (h2 : 2 ≤ keys.length) (hi : i < keys.length)
    (hnd : keys.Nodup) (hk : k ∈ keys) :
    runResolver keys i keys.length = (keys.rotate i).map some
    ∧ (runResolver keys i keys.length).count (some k) = 1
    ∧ runResolver keys i (keys.length + n)
        = runResolver keys i keys.length ++ runResolver keys i n
    ∧ cursorAfter keys i (n + 1) = (cursorAfter keys i n + 1) % keys.length := by
  have hrot := runResolver_length_eq_rotate keys i h2 hi
  refine ⟨hrot, ?_, ?_, ?_⟩
  · rw [hrot, count_map_some]
    exact List.count_eq_one_of_mem (List.nodup_rotate.mpr hnd) (List.mem_rotate.mpr hk)
  · rw [runResolver_add keys keys.length i n,
      cursorAfter_eq keys h2 keys.length i hi,
      Nat.add_mod_right, Nat.mod_eq_of_lt hi]
  · rw [cursorAfter_eq keys h2 (n + 1) i hi, cursorAfter_eq keys h2 n i hi,
      Nat.mod_add_mod]
    congr 1

/-- Witness for `resolver_round_robin` at the pool `["a", "b", "c"]`,
cursor 1. -/
theorem resolver_round_robin_witness :
    (2 ≤ (["a", "b", "c"] : List String).length
      ∧ 1 < (["a", "b", "c"] : List String).length
      ∧ (["a", "b", "c"] : List String).Nodup
      ∧ "b" ∈ (["a", "b", "c"] : List String))
    ∧ (runResolver ["a", "b", "c"] 1 3 = (["a", "b", "c"].rotate 1).map some
      ∧ (runResolver ["a", "b", "c"] 1 3).count (some "b") = 1
      ∧ runResolver ["a", "b", "c"] 1 (3 + 2)
          = runResolver ["a", "b", "c"] 1 3 ++ runResolver ["a", "b", "c"] 1 2
      ∧ cursorAfter ["a", "b", "c"] 1 (2 + 1)
          = (cursorAfter ["a", "b", "c"] 1 2 + 1) % 3) :=
  ⟨by decide,
   resolver_round_robin ["a", "b", "c"] 1 2 "b" (by decide) (by decide)
     (by decide) (by decide)⟩

/-- C3: an empty credential pool always routes through the backend proxy
(no client-side credential is selected, and the test key chooser yields
null without advancing anything); a one-credential pool always returns that
credential and never advances the cursor. -/
theorem pool_empty_proxy_singleton_fixed (keys : List String) (k : String)
    (i n : Nat) :
    (keys.length = 0 →
      getAIClient keys i = (Transport.proxy, i)
      ∧ _chooseKeyForTest keys i = (none, i))
    ∧ runResolver [k] 0 n = List.replicate n (some k)
    ∧ cursorAfter [k] 0 n = 0 := by
  refine ⟨fun h0 => ⟨?_, ?_⟩, ?_, ?_⟩
  · simp [getAIClient, h0]
  · simp [_chooseKeyForTest, h0]
  · induction n with
    | zero => simp [runResolver]
    | succ m ih => simp [runResolver, _chooseKeyForTest, List.replicate_succ, ih]
  · induction n with
    | zero => simp [cursorAfter]
    | succ m ih => simpa [cursorAfter, _chooseKeyForTest] using ih

/-- Witness for `pool_empty_proxy_singleton_fixed` on the empty pool and the
singleton pool `["solo"]`, cursor 7, three calls. -/
theorem pool_empty_proxy_singleton_fixed_witness :
    (((([] : List String)).length = 0 →
      getAIClient [] 7 = (Transport.proxy, 7)
      ∧ _chooseKeyForTest [] 7 = (none, 7))
    ∧ runResolver ["solo"] 0 3 = List.replicate 3 (some "solo")
    ∧ cursorAfter ["solo"] 0 3 = 0) :=
  pool_empty_proxy_singleton_fixed [] "solo" 7 3

/-- C9: `getMotivationalMessage` never propagates a provider failure: every
failing provider call (direct or proxied) produces the fixed default
string. -/
theorem getMotivationalMessage_never_fails (score total : Nat) (e : String) :
    getMotivationalMessage score total (.error e)
      = "Keep learning, you\x27re doing great!" := rfl

/-! ## Auth lemmas -/

lemma findUser_updateFirst (email : String) (f : UserRec → UserRec)
    (hf : ∀ v, (f v).email = v.email) :
    ∀ users, findUser email (updateFirst (fun v => v.email == email) f users)
      = (findUser email users).map f := by
  intro users
  induction users with
  | nil => rfl
  | cons u rest ih =>
    by_cases h : u.email == email
    · simp only [updateFirst, if_pos h, findUser, List.find?_cons]
      have hq : ((f u).email == email) = true := by rw [hf]; exact h
      rw [hq, h]
      rfl
    · simp only [updateFirst, if_neg h, findUser, List.find?_cons]
      rw [Bool.of_not_eq_true h]
      exact ih

lemma otpBad_of_cond (st : Option String) (sub : String) (ex : Option Nat)
    (now : Nat)
    (h : st ≠ some sub ∨ ex = none ∨ ∃ e, ex = some e ∧ e < now) :
    otpBad st sub ex now = true := by
  rcases h with h | h | ⟨e, he, hlt⟩
  · simp [otpBad, bne_iff_ne, h]
  · simp [otpBad, h, expiryBad]
  · simp [otpBad, he, expiryBad, hlt]

lemma otpBad_false (sub : String) (e now : Nat)
    (hnow : 0 < now) (hle : now ≤ e) :
    otpBad (some sub) sub (some e) now = false := by
  have h0 : ¬ e = 0 := by omega
  have h1 : ¬ e < now := by omega
  simp [otpBad, expiryBad, h0, h1]

lemma otpBad_none (sub : String) (ex : Option Nat) (now : Nat) :
    otpBad none sub ex now = true := by
  simp [otpBad]

/-! ## Auth theorems -/

/-- C1: `VerifyOtp(email, otp)` fails with the not-found error when no
record with that email exists; fails with the invalid-otp error leaving the
store unchanged when the stored OTP mismatches, is absent, or is expired;
otherwise sets `isVerified` and clears `otp`/`otpExpiry`, so that a second
call with the same now-cleared OTP fails with the invalid-otp error. -/
theorem verifyOtp_state_machine (users : List UserRec) (email otp : String)
    (now : Nat) (u : UserRec) (e0 : Nat)
    (hnow : 0 < now) (he : email ≠ "") (ho : otp ≠ "") :
    (findUser email users = none →
      verifyOtp email otp now users = (.notFound, users))
    ∧ (findUser email users = some u →
        (u.otp ≠ some otp ∨ u.otpExpiry = none ∨
          ∃ e, u.otpExpiry = some e ∧ e < now) →
        verifyOtp email otp now users = (.invalidOtp, users))
    ∧ (findUser email users = some u → u.otp = some otp →
        u.otpExpiry = some e0 → now ≤ e0 →
        (verifyOtp email otp now users).1 = .ok none
        ∧ findUser email (verifyOtp email otp now users).2
            = some { u with isVerified := true, otp := none, otpExpiry := none }
        ∧ (verifyOtp email otp now (verifyOtp email otp now users).2).1
            = .invalidOtp) := by
  have hg : ¬ (email = "" ∨ otp = "") := by simp [he, ho]
  refine ⟨?_, ?_, ?_⟩
  · intro hf
    simp [verifyOtp, hg, hf]
  · intro hf hbad
    simp [verifyOtp, hg, hf, otpBad_of_cond _ _ _ _ hbad]
  · intro hf hotp hex hle
    have hbadf : otpBad u.otp otp u.otpExpiry now = false := by
      rw [hotp, hex]; exact otpBad_false otp e0 now hnow hle
    have hstep : verifyOtp email otp now users
        = (.ok none, updateFirst (fun v => v.email == email)
            (fun v => { v with isVerified := true, otp := none, otpExpiry := none })
            users) := by
      simp [verifyOtp, hg, hf, hbadf]
    have hf2 : findUser email (updateFirst (fun v => v.email == email)
        (fun v => { v with isVerified := true, otp := none, otpExpiry := none })
        users)
        = some { u with isVerified := true, otp := none, otpExpiry := none } := by
      rw [findUser_updateFirst email
        (fun v => { v with isVerified := true, otp := none, otpExpiry := none })
        (fun v => rfl) users, hf]
      rfl
    refine ⟨by rw [hstep], by rw [hstep]; exact hf2, ?_⟩
    rw [hstep]
    simp [verifyOtp, hg, hf2, otpBad_none]

/-- Witness for `verifyOtp_state_machine`: the concrete unverified record
verifies with the right OTP before expiry, and the second call with the same
(now-cleared) OTP fails. -/
theorem verifyOtp_state_machine_witness :
    (verifyOtp "ana@x.com" "123456" 500 [uvRec]).1 = .ok none
    ∧ (verifyOtp "ana@x.com" "123456" 500
        (verifyOtp "ana@x.com" "123456" 500 [uvRec]).2).1 = .invalidOtp := by
  have h := (verifyOtp_state_machine [uvRec] "ana@x.com" "123456" 500 uvRec 1000
    (by decide) (by decide) (by decide)).2.2 (by decide) (by decide)
    (by decide) (by decide)
  exact ⟨h.1, h.2.2⟩

/-- C4: `VerifyAndLogin` with a matching unexpired OTP but a non-matching
password fails with the invalid-credentials error, yet the OTP is consumed:
the returned store has `otp`/`otpExpiry` cleared (and `isVerified` set), so
retrying with the same OTP fails with the invalid-otp error. -/
theorem verifyAndLogin_consumes_otp (users : List UserRec)
    (email otp password : String) (now e0 : Nat)
    (compare : String → String → Bool) (u : UserRec)
    (he : email ≠ "") (ho : otp ≠ "") (hp : password ≠ "") (hnow : 0 < now)
    (hf : findUser email users = some u)
    (hotp : u.otp = some otp) (hex : u.otpExpiry = some e0) (hle : now ≤ e0)
    (hpw : compare password u.password = false) :
    (verifyAndLogin email otp password now compare users).1 = .invalidCredentials
    ∧ findUser email (verifyAndLogin email otp password now compare users).2
        = some { u with isVerified := true, otp := none, otpExpiry := none }
    ∧ (verifyAndLogin email otp password now compare
        (verifyAndLogin email otp password now compare users).2).1
        = .invalidOtp := by
  have hg : ¬ (email = "" ∨ otp = "" ∨ password = "") := by simp [he, ho, hp]
  have hbadf : otpBad u.otp otp u.otpExpiry now = false := by
    rw [hotp, hex]; exact otpBad_false otp e0 now hnow hle
  have hstep : verifyAndLogin email otp password now compare users
      = (.invalidCredentials, updateFirst (fun v => v.email == email)
          (fun v => { v with isVerified := true, otp := none, otpExpiry := none })
          users) := by
    simp [verifyAndLogin, hg, hf, hbadf, hpw]
  have hf2 : findUser email (updateFirst (fun v => v.email == email)
      (fun v => { v with isVerified := true, otp := none, otpExpiry := none })
      users)
      = some { u with isVerified := true, otp := none, otpExpiry := none } := by
    rw [findUser_updateFirst email
      (fun v => { v with isVerified := true, otp := none, otpExpiry := none })
      (fun v => rfl) users, hf]
    rfl
  refine ⟨by rw [hstep], by rw [hstep]; exact hf2, ?_⟩
  rw [hstep]
  simp [verifyAndLogin, hg, hf2, otpBad_none]

/-- Witness for `verifyAndLogin_consumes_otp`: correct OTP, wrong password:
401 invalid credentials, and the same OTP no longer verifies afterwards. -/
theorem verifyAndLogin_consumes_otp_witness :
    (verifyAndLogin "ana@x.com" "123456" "pw" 500 (fun _ _ => false) [uvRec]).1
      = .invalidCredentials
    ∧ (verifyAndLogin "ana@x.com" "123456" "pw" 500 (fun _ _ => false)
        (verifyAndLogin "ana@x.com" "123456" "pw" 500 (fun _ _ => false)
          [uvRec]).2).1 = .invalidOtp := by
  have h := verifyAndLogin_consumes_otp [uvRec] "ana@x.com" "123456" "pw" 500 1000
    (fun _ _ => false) uvRec (by decide) (by decide) (by decide) (by decide)
    (by decide) (by decide) (by decide) (by decide) rfl
  exact ⟨h.1, h.2.2⟩

/-- C5: `Login` on an existing unverified record fails with the unverified
error (HTTP 403) for every submitted password — the verification check comes
before the password comparison — so the response is identical across any two
runs that differ only in the submitted password. -/
theorem login_unverified_no_password_leak (users : List UserRec)
    (email p1 p2 : String) (compare : String → String → Bool) (u : UserRec)
    (hf : findUser email users = some u) (hv : u.isVerified = false) :
    login email p1 compare users = .unverified
    ∧ login email p1 compare users = login email p2 compare users
    ∧ AuthResult.status .unverified = 403 := by
  have h1 : login email p1 compare users = .unverified := by simp [login, hf, hv]
  have h2 : login email p2 compare users = .unverified := by simp [login, hf, hv]
  exact ⟨h1, by rw [h1, h2], rfl⟩

/-- Witness for `login_unverified_no_password_leak`: the unverified record
gets 403 with the right password and with a wrong one, identically. -/
theorem login_unverified_no_password_leak_witness :
    login "ana@x.com" "HPW" (fun p h => p == h) [uvRec] = .unverified
    ∧ login "ana@x.com" "HPW" (fun p h => p == h) [uvRec]
        = login "ana@x.com" "nope" (fun p h => p == h) [uvRec] :=
  ⟨(login_unverified_no_password_leak [uvRec] "ana@x.com" "HPW" "nope"
      (fun p h => p == h) uvRec (by decide) (by decide)).1,
   (login_unverified_no_password_leak [uvRec] "ana@x.com" "HPW" "nope"
      (fun p h => p == h) uvRec (by decide) (by decide)).2.1⟩

lemma signup_unverified_step (users : List UserRec)
    (nm email password newOtp : String) (now : Nat) (hash : String → String)
    (ex : UserRec)
    (hg : ¬ (nm = "" ∨ email = "" ∨ password = ""))
    (hf : findUser email users = some ex) (hv : ex.isVerified = false) :
    signup nm email password now newOtp hash users
      = (.ok none, updateFirst (fun v => v.email == email)
          (fun v => { v with otp := some newOtp,
                             otpExpiry := some (now + 5 * 60 * 1000) })
          users) := by
  simp [signup, hg, hf, hv]

lemma signup_unverified_findUser (users : List UserRec)
    (nm email password newOtp : String) (now : Nat) (hash : String → String)
    (ex : UserRec)
    (hg : ¬ (nm = "" ∨ email = "" ∨ password = ""))
    (hf : findUser email users = some ex) (hv : ex.isVerified = false) :
    findUser email (signup nm email password now newOtp hash users).2
      = some { ex with otp := some newOtp,
                       otpExpiry := some (now + 5 * 60 * 1000) } := by
  rw [signup_unverified_step users nm email password newOtp now hash ex hg hf hv]
  rw [findUser_updateFirst email
    (fun v => { v with otp := some newOtp,
                       otpExpiry := some (now + 5 * 60 * 1000) })
    (fun v => rfl) users, hf]
  rfl

/-- C6: signup against an existing verified record fails with the duplicate
error (HTTP 409); against an existing unverified record it succeeds (200)
and stores a fresh OTP with a new 5-minute expiry, after which the
previously issued (different) OTP no longer verifies. -/
theorem signup_existing_account (users : List UserRec)
    (nm email password newOtp oldOtp : String) (now now2 : Nat)
    (hash : String → String) (ex : UserRec)
    (hn : nm ≠ "") (he : email ≠ "") (hp : password ≠ "")
    (hf : findUser email users = some ex) :
    (ex.isVerified = true →
      signup nm email password now newOtp hash users = (.duplicate, users)
      ∧ AuthResult.status .duplicate = 409)
    ∧ (ex.isVerified = false →
      (signup nm email password now newOtp hash users).1 = .ok none
      ∧ AuthResult.status (signup nm email password now newOtp hash users).1 = 200
      ∧ findUser email (signup nm email password now newOtp hash users).2
          = some { ex with otp := some newOtp,
                           otpExpiry := some (now + 5 * 60 * 1000) }
      ∧ (oldOtp ≠ newOtp → oldOtp ≠ "" →
          (verifyOtp email oldOtp now2
            (signup nm email password now newOtp hash users).2).1
            = .invalidOtp)) := by
  have hg : ¬ (nm = "" ∨ email = "" ∨ password = "") := by simp [hn, he, hp]
  constructor
  · intro hv
    exact ⟨by simp [signup, hg, hf, hv], rfl⟩
  · intro hv
    have hstep := signup_unverified_step users nm email password newOtp now hash ex hg hf hv
    have hfind := signup_unverified_findUser users nm email password newOtp now hash ex hg hf hv
    refine ⟨by rw [hstep], by rw [hstep]; rfl, hfind, ?_⟩
    intro hne ho2
    have hg2 : ¬ (email = "" ∨ oldOtp = "") := by simp [he, ho2]
    have hbad : otpBad (some newOtp) oldOtp (some (now + 5 * 60 * 1000)) now2 = true := by
      apply otpBad_of_cond
      exact Or.inl (by simpa using fun hcontr => hne hcontr.symm)
    simp [verifyOtp, hg2, hfind, hbad]

/-- Witness for `signup_existing_account`: duplicate signup against the
verified record is a 409; signup against the unverified record is a 200 and
invalidates the old OTP. -/
theorem signup_existing_account_witness :
    signup "Bob" "bob@x.com" "pw" 500 "999999" (fun s => s) [vRec]
      = (.duplicate, [vRec])
    ∧ (verifyOtp "ana@x.com" "123456" 600
        (signup "Ana" "ana@x.com" "pw" 500 "999999" (fun s => s) [uvRec]).2).1
      = .invalidOtp := by
  refine ⟨((signup_existing_account [vRec] "Bob" "bob@x.com" "pw" "999999" "123456"
    500 600 (fun s => s) vRec (by decide) (by decide) (by decide)
    (by decide)).1 (by decide)).1, ?_⟩
  exact ((signup_existing_account [uvRec] "Ana" "ana@x.com" "pw" "999999" "123456"
    500 600 (fun s => s) uvRec (by decide) (by decide) (by decide)
    (by decide)).2 (by decide)).2.2.2 (by decide) (by decide)

/-- C10 (implicit frame property): when signup hits an existing unverified
record, only `otp` and `otpExpiry` change; the stored name, hashed
password, verification flag and reset fields are kept, whatever name and
password the retry supplied. -/
theorem signup_unverified_frame (users : List UserRec)
    (nm2 email pw2 newOtp : String) (now : Nat) (hash : String → String)
    (ex : UserRec)
    (hn : nm2 ≠ "") (he : email ≠ "") (hp : pw2 ≠ "")
    (hf : findUser email users = some ex) (hv : ex.isVerified = false) :
    findUser email (signup nm2 email pw2 now newOtp hash users).2
      = some { ex with otp := some newOtp,
                       otpExpiry := some (now + 5 * 60 * 1000) }
    ∧ ({ ex with otp := some newOtp,
                 otpExpiry := some (now + 5 * 60 * 1000) } : UserRec).name
        = ex.name
    ∧ ({ ex with otp := some newOtp,
                 otpExpiry := some (now + 5 * 60 * 1000) } : UserRec).password
        = ex.password
    ∧ ({ ex with otp := some newOtp,
                 otpExpiry := some (now + 5 * 60 * 1000) } : UserRec).isVerified
        = ex.isVerified
    ∧ ({ ex with otp := some newOtp,
                 otpExpiry := some (now + 5 * 60 * 1000) } : UserRec).resetOtp
        = ex.resetOtp
    ∧ ({ ex with otp := some newOtp,
                 otpExpiry := some (now + 5 * 60 * 1000) } : UserRec).resetOtpExpiry
        = ex.resetOtpExpiry := by
  have hg : ¬ (nm2 = "" ∨ email = "" ∨ pw2 = "") := by simp [hn, he, hp]
  exact ⟨signup_unverified_findUser users nm2 email pw2 newOtp now hash ex hg hf hv,
    rfl, rfl, rfl, rfl, rfl⟩

/-- Witness for `signup_unverified_frame`: retrying signup with a different
name and password keeps the stored name `"Ana"` and password `"HPW"`. -/
theorem signup_unverified_frame_witness :
    findUser "ana@x.com"
        (signup "Zoe" "ana@x.com" "otherpw" 500 "999999"
          (fun s => String.append s "!") [uvRec]).2
      = some { uvRec with otp := some "999999", otpExpiry := some 300500 } :=
  (signup_unverified_frame [uvRec] "Zoe" "ana@x.com" "otherpw" "999999" 500
    (fun s => String.append s "!") uvRec (by decide) (by decide) (by decide)
    (by decide) (by decide)).1

/-- C7: `ResetPassword` with an absent record, a mismatched/absent
`resetOtp`, or an expired `resetOtpExpiry` fails with the invalid-otp error
and leaves the store (in particular the stored password) unchanged; on
success the password is rehashed and stored and `resetOtp`/`resetOtpExpiry`
are cleared. -/
theorem resetPassword_guarded (users : List UserRec)
    (email otp newPassword : String) (now e0 : Nat)
    (hash : String → String) (u : UserRec)
    (he : email ≠ "") (ho : otp ≠ "") (hp : newPassword ≠ "") (hnow : 0 < now) :
    (findUser email users = none →
      resetPassword email otp newPassword now hash users = (.invalidOtp, users))
    ∧ (findUser email users = some u →
        (u.resetOtp ≠ some otp ∨ u.resetOtpExpiry = none ∨
          ∃ e, u.resetOtpExpiry = some e ∧ e < now) →
        resetPassword email otp newPassword now hash users = (.invalidOtp, users))
    ∧ (findUser email users = some u → u.resetOtp = some otp →
        u.resetOtpExpiry = some e0 → now ≤ e0 →
        (resetPassword email otp newPassword now hash users).1 = .ok none
        ∧ findUser email (resetPassword email otp newPassword now hash users).2
            = some { u with password := hash newPassword,
                            resetOtp := none, resetOtpExpiry := none }) := by
  have hg : ¬ (email = "" ∨ otp = "" ∨ newPassword = "") := by simp [he, ho, hp]
  refine ⟨?_, ?_, ?_⟩
  · intro hf
    simp [resetPassword, hg, hf]
  · intro hf hbad
    simp [resetPassword, hg, hf, otpBad_of_cond _ _ _ _ hbad]
  · intro hf hotp hex hle
    have hbadf : otpBad u.resetOtp otp u.resetOtpExpiry now = false := by
      rw [hotp, hex]; exact otpBad_false otp e0 now hnow hle
    have hstep : resetPassword email otp newPassword now hash users
        = (.ok none, updateFirst (fun v => v.email == email)
            (fun v => { v with password := hash newPassword,
                               resetOtp := none, resetOtpExpiry := none })
            users) := by
      simp [resetPassword, hg, hf, hbadf]
    refine ⟨by rw [hstep], ?_⟩
    rw [hstep]
    rw [findUser_updateFirst email
      (fun v => { v with password := hash newPassword,
                         resetOtp := none, resetOtpExpiry := none })
      (fun v => rfl) users, hf]
    rfl

/-- Witness for `resetPassword_guarded`: a mismatched reset OTP leaves the
store unchanged; the matching unexpired reset OTP stores the new hash. -/
theorem resetPassword_guarded_witness :
    resetPassword "ana@x.com" "000000" "np" 500 (fun s => s) [uvRec]
      = (.invalidOtp, [uvRec])
    ∧ findUser "ana@x.com"
        (resetPassword "ana@x.com" "654321" "np" 500 (fun s => s) [uvRec]).2
      = some { uvRec with password := "np",
                          resetOtp := none, resetOtpExpiry := none } := by
  refine ⟨(resetPassword_guarded [uvRec] "ana@x.com" "000000" "np" 500 1000
    (fun s => s) uvRec (by decide) (by decide) (by decide) (by decide)).2.1
    (by decide) (Or.inl (by decide)), ?_⟩
  exact ((resetPassword_guarded [uvRec] "ana@x.com" "654321" "np" 500 1000
    (fun s => s) uvRec (by decide) (by decide) (by decide) (by decide)).2.2
    (by decide) (by decide) (by decide) (by decide)).2

/-- C8 counterexample: with a failing email delivery, the memory-store path
of `ResendOtp` returns success (failure swallowed), while the
persisted-store path returns a 500 (failure surfaced) — the opposite of the
claimed asymmetry. -/
theorem resendOtp_claimed_asymmetry_false :
    (resendOtp false "ana@x.com" "111111" 500 false [uvRec]).1 = .ok none
    ∧ (resendOtp true "ana@x.com" "111111" 500 false [uvRec]).1 = .serverError
    ∧ AuthResult.status (resendOtp true "ana@x.com" "111111" 500 false [uvRec]).1
        = 500 := by
  decide

/-- C8 (amended): in `ResendOtp`, after storing a fresh OTP/expiry, an
email-delivery failure is swallowed (the call still returns success) on the
memory-store path but surfaced as a 500 error on the persisted-store path;
on both paths the fresh OTP is already stored. -/
theorem resendOtp_email_failure_paths (users : List UserRec)
    (email newOtp : String) (now : Nat) (u : UserRec)
    (he : email ≠ "") (hf : findUser email users = some u) :
    (resendOtp false email newOtp now false users).1 = .ok none
    ∧ (resendOtp true email newOtp now false users).1 = .serverError
    ∧ findUser email (resendOtp false email newOtp now false users).2
        = some { u with otp := some newOtp,
                        otpExpiry := some (now + 5 * 60 * 1000) }
    ∧ findUser email (resendOtp true email newOtp now false users).2
        = some { u with otp := some newOtp,
                        otpExpiry := some (now + 5 * 60 * 1000) } := by
  have hfu : findUser email (updateFirst (fun v => v.email == email)
      (fun v => { v with otp := some newOtp,
                         otpExpiry := some (now + 5 * 60 * 1000) }) users)
      = some { u with otp := some newOtp,
                      otpExpiry := some (now + 5 * 60 * 1000) } := by
    rw [findUser_updateFirst email
      (fun v => { v with otp := some newOtp,
                         otpExpiry := some (now + 5 * 60 * 1000) })
      (fun v => rfl) users, hf]
    rfl
  refine ⟨by simp [resendOtp, he, hf], by simp [resendOtp, he, hf], ?_, ?_⟩
  · simpa [resendOtp, he, hf] using hfu
  · simpa [resendOtp, he, hf] using hfu

/-- Witness for `resendOtp_email_failure_paths` on the concrete record. -/
theorem resendOtp_email_failure_paths_witness :
    (resendOtp false "ana@x.com" "111111" 500 false [uvRec]).1 = .ok none
    ∧ findUser "ana@x.com" (resendOtp true "ana@x.com" "111111" 500 false [uvRec]).2
        = some { uvRec with otp := some "111111", otpExpiry := some 300500 } := by
  have h := resendOtp_email_failure_paths [uvRec] "ana@x.com" "111111" 500 uvRec
    (by decide) (by decide)
  exact ⟨h.1, h.2.2.2⟩
